import Mathlib

/-!
Shallow embedding of the stream-ingest session of archroid/watchify
(src/hls/main.go): the RTMP `Handler` with its `OnPublish`,
`OnSetDataFrame`, `OnAudio`, `OnVideo` and `OnClose` callbacks.

External effects (directory creation, the ffmpeg child process, its stdin
pipe, log lines) are tracked in an explicit `World`.  Outcomes of external
calls that can fail (`os.MkdirAll`, `cmd.StdinPipe`, `cmd.Start`,
`flv.NewEncoder`, payload decoding, `io.Copy`) are supplied as boolean
oracle arguments, so every callback is a pure function of the handler,
the world and the oracles.  Writes to a pipe succeed exactly when the
pipe's write end has not been closed, which models the behaviour the
claims are about (a write to a closed pipe fails and transfers no bytes).
-/

namespace Watchify

/-- Split a character list on the separator byte, as Go's `filepath`
functions treat `/` on Unix. -/
def splitSlash : List Char → List (List Char)
  | [] => [[]]
  | c :: cs =>
    let r := splitSlash cs
    if c = '/' then [] :: r
    else
      match r with
      | [] => [[c]]
      | g :: gs => (c :: g) :: gs

/-- Rejoin path components with single slashes. -/
def joinSlash : List (List Char) → List Char
  | [] => []
  | [c] => c
  | c :: cs => c ++ '/' :: joinSlash cs

/-- One step of the lexical cleaning of Go's `filepath.Clean`: push a
component onto the (reversed) output stack, eliding empty and `.`
components and resolving `..` against the stack. -/
def cleanPush (rooted : Bool) (acc : List (List Char)) (c : List Char) :
    List (List Char) :=
  if c = [] ∨ c = ['.'] then acc
  else if c = ['.', '.'] then
    match acc with
    | [] => if rooted then [] else [c]
    | top :: rest => if top = ['.', '.'] then c :: acc else rest
  else c :: acc

/-- Go's `filepath.Clean` for Unix paths: purely lexical shortest
equivalent path; `..` components that climb above a relative path's start
are kept, `..` at the root of an absolute path is dropped; the empty path
cleans to `.`. -/
def filepathClean (p : String) : String :=
  if p = "" then "."
  else
    let rooted := p.data.head? = some '/'
    let comps := (splitSlash p.data).foldl (cleanPush rooted) []
    let body := joinSlash comps.reverse
    if rooted then ⟨'/' :: body⟩
    else if body = [] then "." else ⟨body⟩

/-- Go's `filepath.Join` on two elements: empty elements are dropped, the
rest are joined with a slash and the result is cleaned. -/
def filepathJoin (a b : String) : String :=
  if a = "" then filepathClean b
  else if b = "" then filepathClean a
  else filepathClean ⟨a.data ++ '/' :: b.data⟩

/-- The output directory `OnPublish` derives from the publishing name:
`filepath.Join("public", filepath.Clean(cmd.PublishingName))`
(src/hls/main.go line 82). -/
def derivedOutputDir (name : String) : String :=
  filepathJoin "public" (filepathClean name)

/-- Whether a (cleaned) path lies inside the given root directory: it is
the root itself or has `root/` as a leading component sequence. -/
def isWithinRoot (root p : String) : Bool :=
  p == root || List.isPrefixOf (root.data ++ ['/']) p.data

/-- The write end of the ffmpeg stdin pipe, with the number of times
`Close` was called on it, the number of write attempts made through it
and the number of writes that succeeded (a write succeeds only while the
write end is not closed). -/
structure Pipe where
  pid : Nat
  closeCount : Nat
  writeAttempts : Nat
  writesSucceeded : Nat
deriving DecidableEq

/-- A spawned ffmpeg process, with the number of times `Process.Kill`
was called on it. -/
structure Proc where
  procId : Nat
  killCount : Nat
deriving DecidableEq

/-- The external state a session touches: spawned processes, created
pipes, created directories, the number of log lines emitted and a fresh
id counter for new resources. -/
structure World where
  pipes : List Pipe
  procs : List Proc
  dirs : List String
  logs : Nat
  nextId : Nat
deriving DecidableEq

/-- The world before any callback ran. -/
def World.start : World := ⟨[], [], [], 0, 0⟩

/-- Emit one log line. -/
def World.log (w : World) : World :=
  { w with logs := w.logs + 1 }

/-- Create a fresh pipe (ffmpegCmd.StdinPipe), returning its id. -/
def World.newPipe (w : World) : World × Nat :=
  ({ w with pipes := w.pipes ++ [⟨w.nextId, 0, 0, 0⟩],
            nextId := w.nextId + 1 }, w.nextId)

/-- Spawn a fresh process (ffmpegCmd.Start), returning its id. -/
def World.newProc (w : World) : World × Nat :=
  ({ w with procs := w.procs ++ [⟨w.nextId, 0⟩],
            nextId := w.nextId + 1 }, w.nextId)

/-- Call `Close` on the write end of pipe `i`. -/
def World.closePipe (w : World) (i : Nat) : World :=
  { w with pipes := w.pipes.map fun p =>
      if p.pid = i then { p with closeCount := p.closeCount + 1 } else p }

/-- Call `Process.Kill` on process `c`. -/
def World.killProc (w : World) (c : Nat) : World :=
  { w with procs := w.procs.map fun q =>
      if q.procId = c then { q with killCount := q.killCount + 1 } else q }

/-- Look up pipe `i`. -/
def World.pipeBy (w : World) (i : Nat) : Option Pipe :=
  w.pipes.find? fun p => p.pid == i

/-- Look up process `c`. -/
def World.procBy (w : World) (c : Nat) : Option Proc :=
  w.procs.find? fun q => q.procId == c

/-- Attempt a write through pipe `i`: the attempt is recorded, and it
succeeds (bytes are transferred) exactly when the pipe exists and its
write end is not closed. -/
def World.writePipe (w : World) (i : Nat) : World × Bool :=
  match w.pipeBy i with
  | none => (w, false)
  | some p =>
    ({ w with pipes := w.pipes.map fun q =>
        if q.pid = i then
          { q with writeAttempts := q.writeAttempts + 1,
                   writesSucceeded := q.writesSucceeded +
                     (if p.closeCount == 0 then 1 else 0) }
        else q }, p.closeCount == 0)

/-- The session handler's fields (src/hls/main.go lines 68-73): the
spawned ffmpeg command, the write end of its stdin pipe, and the FLV
encoder bound to that pipe.  `none` models a nil Go pointer; a fresh
handler has all three nil. -/
structure Handler where
  ffmpegCmd : Option Nat := none
  ffmpegIn : Option Nat := none
  flvEnc : Option Nat := none
deriving DecidableEq

/-- A fresh handler, as constructed per connection (`&Handler{}`). -/
def Handler.start : Handler := {}

/-- The errors the callbacks can return, one per `return err` site of
src/hls/main.go. -/
inductive GoErr
  | publishingNameEmpty
  | mkdirFailed
  | stdinPipeFailed
  | startFailed
  | newEncoderFailed
  | decodeFailed
  | copyFailed
  | writeFailed
deriving DecidableEq

/-- How a callback finishes: normal return of nil, normal return of an
error, or a runtime panic (nil pointer dereference). -/
inductive CallResult
  | ok
  | err (e : GoErr)
  | panicked
deriving DecidableEq

/-- Encode one FLV tag through the handler's encoder
(`h.flvEnc.Encode(...)`): with a nil encoder this dereferences nil and
panics; otherwise it is one write attempt on the pipe the encoder is
bound to, failing when that pipe's write end is closed. -/
def encodeTag (h : Handler) (w : World) : World × CallResult :=
  match h.flvEnc with
  | none => (w, .panicked)
  | some i =>
    let r := w.writePipe i
    (r.1, if r.2 then .ok else .err .writeFailed)

/-- `Handler.OnPublish` (src/hls/main.go lines 75-128), with the outcome
of each fallible external call supplied as a boolean: `os.MkdirAll`,
`cmd.StdinPipe`, `cmd.Start`, `flv.NewEncoder`.  When `cmd.Start` fails,
Go's os/exec closes the pipe ends created by `StdinPipe` before
returning, which the model mirrors.  `flv.NewEncoder` writes the FLV
file header to its sink on creation, which the model records as one
pipe write. -/
def OnPublish (h : Handler) (w : World) (name : String)
    (mkdirOk stdinPipeOk startOk newEncoderOk : Bool) :
    Handler × World × CallResult :=
  let w := w.log
  if name = "" then (h, w, .err .publishingNameEmpty)
  else
    let outputDir := derivedOutputDir name
    if !mkdirOk then (h, w, .err .mkdirFailed)
    else
      let w := { w with dirs := w.dirs ++ [outputDir] }
      if !stdinPipeOk then (h, w, .err .stdinPipeFailed)
      else
        let r := w.newPipe
        let w := r.1
        let pipeId := r.2
        if !startOk then (h, w.closePipe pipeId, .err .startFailed)
        else
          let r2 := w.newProc
          let w := r2.1
          let procId := r2.2
          let h := { h with ffmpegCmd := some procId,
                            ffmpegIn := some pipeId }
          if !newEncoderOk then
            (h, (w.closePipe pipeId).killProc procId,
             .err .newEncoderFailed)
          else
            let r3 := w.writePipe pipeId
            ({ h with flvEnc := some pipeId }, r3.1, .ok)

/-- `Handler.OnSetDataFrame` (src/hls/main.go lines 130-147): a decode
failure is logged and nil is returned; on decode success the script tag
is encoded, an encode failure is logged and nil is returned. -/
def OnSetDataFrame (h : Handler) (w : World) (decodeOk : Bool) :
    Handler × World × CallResult :=
  if !decodeOk then (h, w.log, .ok)
  else
    match encodeTag h w with
    | (w, .panicked) => (h, w, .panicked)
    | (w, .err _) => (h, w.log, .ok)
    | (w, _) => (h, w, .ok)

/-- `Handler.OnAudio` (src/hls/main.go lines 149-169): a decode failure
is returned to the caller, an `io.Copy` failure is returned to the
caller, an encode failure is logged and nil is returned. -/
def OnAudio (h : Handler) (w : World) (decodeOk copyOk : Bool) :
    Handler × World × CallResult :=
  if !decodeOk then (h, w, .err .decodeFailed)
  else if !copyOk then (h, w, .err .copyFailed)
  else
    match encodeTag h w with
    | (w, .panicked) => (h, w, .panicked)
    | (w, .err _) => (h, w.log, .ok)
    | (w, _) => (h, w, .ok)

/-- `Handler.OnVideo` (src/hls/main.go lines 171-191): same shape as
`OnAudio` with a video tag. -/
def OnVideo (h : Handler) (w : World) (decodeOk copyOk : Bool) :
    Handler × World × CallResult :=
  if !decodeOk then (h, w, .err .decodeFailed)
  else if !copyOk then (h, w, .err .copyFailed)
  else
    match encodeTag h w with
    | (w, .panicked) => (h, w, .panicked)
    | (w, .err _) => (h, w.log, .ok)
    | (w, _) => (h, w, .ok)

/-- `Handler.OnClose` (src/hls/main.go lines 193-204): logs, closes
`h.ffmpegIn` when `h.flvEnc` is non-nil (a nil `ffmpegIn` there would be
a nil interface call, modelled as a panic), then kills `h.ffmpegCmd`'s
process when the command is non-nil (every process the model spawns has
a non-nil `Process` field).  The handler's fields are never changed. -/
def OnClose (h : Handler) (w : World) : Handler × World × CallResult :=
  let w := w.log
  match h.flvEnc, h.ffmpegIn with
  | some _, none => (h, w, .panicked)
  | fe, fin =>
    let w := match fe, fin with
      | some _, some i => w.closePipe i
      | _, _ => w
    let w := match h.ffmpegCmd with
      | some c => w.killProc c
      | none => w
    (h, w, .ok)

/-- A successful publish of stream "s" from a fresh session. -/
def pubState : Handler × World :=
  let r := OnPublish Handler.start World.start "s" true true true true
  (r.1, r.2.1)

/-- The published session after one `OnClose`. -/
def closedOnce : Handler × World :=
  let r := OnClose pubState.1 pubState.2
  (r.1, r.2.1)

/-- The published session after two `OnClose` calls. -/
def closedTwice : Handler × World :=
  let r := OnClose closedOnce.1 closedOnce.2
  (r.1, r.2.1)

/-- A second `OnPublish "s"` issued on the already-publishing session. -/
def twoPublishes : Handler × World × CallResult :=
  OnPublish pubState.1 pubState.2 "s" true true true true

/-- A publish attempt on a fresh session where `flv.NewEncoder` fails. -/
def encFailRun : Handler × World × CallResult :=
  OnPublish Handler.start World.start "s" true true true false

/-- A publish attempt on a fresh session where `cmd.Start` fails. -/
def startFailRun : Handler × World × CallResult :=
  OnPublish Handler.start World.start "s" true true false true

/-- A run of `n` `OnSetDataFrame` calls whose payloads all fail to
decode. -/
def runMalformedMeta (h : Handler) (w : World) : Nat → Handler × World
  | 0 => (h, w)
  | n + 1 =>
    let r := OnSetDataFrame h w false
    runMalformedMeta r.1 r.2.1 n

/-- A publish with the traversal name `"../../etc"` on a fresh session,
with every external call succeeding. -/
def traversalRun : Handler × World × CallResult :=
  OnPublish Handler.start World.start "../../etc" true true true true

/-- A well-formed audio frame delivered after the session was closed. -/
def postCloseAudio : Handler × World × CallResult :=
  OnAudio closedOnce.1 closedOnce.2 true true

/-- The number of `Close` calls made so far on pipe `i`. -/
def World.closeCountOf (w : World) (i : Nat) : Nat :=
  ((w.pipeBy i).map Pipe.closeCount).getD 0

/-- The number of write attempts made so far through pipe `i`. -/
def World.writeAttemptsOf (w : World) (i : Nat) : Nat :=
  ((w.pipeBy i).map Pipe.writeAttempts).getD 0

/-- The number of writes that actually transferred bytes through pipe
`i`. -/
def World.writesSucceededOf (w : World) (i : Nat) : Nat :=
  ((w.pipeBy i).map Pipe.writesSucceeded).getD 0

/-- The number of `Process.Kill` calls made so far on process `c`. -/
def World.killCountOf (w : World) (c : Nat) : Nat :=
  ((w.procBy c).map Proc.killCount).getD 0

/-- Mapping a key-preserving function over a list commutes with looking
up the first element with a given key. -/
theorem find?_map_key {α : Type} (key : α → Nat) (f : α → α) (i : Nat)
    (hf : ∀ x, key (f x) = key x) (l : List α) :
    (l.map f).find? (fun x => key x == i) =
      (l.find? fun x => key x == i).map f := by
  induction l with
  | nil => rfl
  | cons a l ih =>
    simp only [List.map_cons]
    by_cases h : key a = i
    · rw [List.find?_cons_of_pos _ (by simp [hf, h]),
        List.find?_cons_of_pos _ (by simp [h])]
      rfl
    · rw [List.find?_cons_of_neg _ (by simp [hf, h]),
        List.find?_cons_of_neg _ (by simp [h]), ih]

/-- Closing a pipe increments its close count and changes nothing else
about it. -/
theorem pipeBy_closePipe (w : World) (i : Nat) (p : Pipe)
    (hp : w.pipeBy i = some p) :
    (w.closePipe i).pipeBy i =
      some { p with closeCount := p.closeCount + 1 } := by
  have hp2 : w.pipes.find? (fun q => q.pid == i) = some p := hp
  have hpid : p.pid = i := by simpa using List.find?_some hp2
  have key : ((w.closePipe i).pipes.find? fun q => q.pid == i) =
      (w.pipes.find? fun q => q.pid == i).map fun q =>
        if q.pid = i then { q with closeCount := q.closeCount + 1 } else q :=
    find?_map_key Pipe.pid _ i (by intro x; split <;> rfl) _
  show ((w.closePipe i).pipes.find? fun q => q.pid == i) = _
  rw [key, hp2]
  simp [hpid]

/-- Killing a process increments its kill count and changes nothing else
about it. -/
theorem procBy_killProc (w : World) (c : Nat) (q : Proc)
    (hq : w.procBy c = some q) :
    (w.killProc c).procBy c =
      some { q with killCount := q.killCount + 1 } := by
  have hq2 : w.procs.find? (fun x => x.procId == c) = some q := hq
  have hqid : q.procId = c := by simpa using List.find?_some hq2
  have key : ((w.killProc c).procs.find? fun x => x.procId == c) =
      (w.procs.find? fun x => x.procId == c).map fun x =>
        if x.procId = c then { x with killCount := x.killCount + 1 }
        else x :=
    find?_map_key Proc.procId _ c (by intro x; split <;> rfl) _
  show ((w.killProc c).procs.find? fun x => x.procId == c) = _
  rw [key, hq2]
  simp [hqid]

/-- Logging does not touch the pipes. -/
theorem pipeBy_log (w : World) (i : Nat) : (w.log).pipeBy i = w.pipeBy i :=
  rfl

/-- Killing a process does not touch the pipes. -/
theorem pipeBy_killProc (w : World) (c i : Nat) :
    (w.killProc c).pipeBy i = w.pipeBy i := rfl

/-- Logging does not touch the processes. -/
theorem procBy_log (w : World) (c : Nat) : (w.log).procBy c = w.procBy c :=
  rfl

/-- Closing a pipe does not touch the processes. -/
theorem procBy_closePipe (w : World) (i c : Nat) :
    (w.closePipe i).procBy c = w.procBy c := rfl

/-- A write attempted on a pipe whose write end has been closed fails:
the attempt is recorded but no bytes are transferred. -/
theorem writePipe_closed (w : World) (i : Nat) (p : Pipe)
    (hp : w.pipeBy i = some p) (hc : p.closeCount ≠ 0) :
    (w.writePipe i).2 = false ∧
    (w.writePipe i).1.pipeBy i =
      some { p with writeAttempts := p.writeAttempts + 1 } := by
  have hp2 : w.pipes.find? (fun q => q.pid == i) = some p := hp
  have hpid : p.pid = i := by simpa using List.find?_some hp2
  have hcb : (p.closeCount == 0) = false := by simpa using hc
  have h1 : w.writePipe i =
      ({ w with pipes := w.pipes.map fun q =>
          if q.pid = i then
            { q with writeAttempts := q.writeAttempts + 1,
                     writesSucceeded := q.writesSucceeded +
                       (if p.closeCount == 0 then 1 else 0) }
          else q }, p.closeCount == 0) := by
    unfold World.writePipe
    rw [hp]
  rw [h1, hcb]
  refine ⟨rfl, ?_⟩
  have key := find?_map_key Pipe.pid
    (fun q => if q.pid = i then
        { q with writeAttempts := q.writeAttempts + 1,
                 writesSucceeded := q.writesSucceeded +
                   (if (false : Bool) then 1 else 0) }
      else q)
    i (by intro x; by_cases hx : x.pid = i <;> simp [hx]) w.pipes
  show (List.find? _ _) = _
  rw [key, hp2]
  simp [hpid]

/-- Evaluating `OnAudio` on a well-formed frame through the result of
`encodeTag`. -/
theorem OnAudio_encode (h : Handler) (w w2 : World) (r : CallResult)
    (hx : encodeTag h w = (w2, r)) :
    OnAudio h w true true =
      match r with
      | .panicked => (h, w2, .panicked)
      | .err _ => (h, w2.log, .ok)
      | .ok => (h, w2, .ok) := by
  cases r <;> simp [OnAudio, hx]

/-- Evaluating `OnVideo` on a well-formed frame through the result of
`encodeTag`. -/
theorem OnVideo_encode (h : Handler) (w w2 : World) (r : CallResult)
    (hx : encodeTag h w = (w2, r)) :
    OnVideo h w true true =
      match r with
      | .panicked => (h, w2, .panicked)
      | .err _ => (h, w2.log, .ok)
      | .ok => (h, w2, .ok) := by
  cases r <;> simp [OnVideo, hx]

/-- Evaluating `OnSetDataFrame` on a well-formed record through the
result of `encodeTag`. -/
theorem OnSetDataFrame_encode (h : Handler) (w w2 : World) (r : CallResult)
    (hx : encodeTag h w = (w2, r)) :
    OnSetDataFrame h w true =
      match r with
      | .panicked => (h, w2, .panicked)
      | .err _ => (h, w2.log, .ok)
      | .ok => (h, w2, .ok) := by
  cases r <;> simp [OnSetDataFrame, hx]

/-- C1: `OnPublish` does not confine the derived output directory to the
output root `public`.  For the name `"../../etc"` the derived path is
`"../etc"`, which lies outside `public`; the directory is created there
and the publish succeeds instead of failing with a path error. -/
theorem c1_traversal_not_rejected :
    derivedOutputDir "../../etc" = "../etc" ∧
    isWithinRoot "public" (derivedOutputDir "../../etc") = false ∧
    traversalRun.2.2 = .ok ∧
    traversalRun.2.1.dirs = ["../etc"] := by decide

/-- C2: a second `OnPublish` on a session that is already publishing
spawns a second ffmpeg process and overwrites the handler's fields, so
the first process (kill count 0) stays alive and the first pipe (pid 0,
close count 0) is left open with no handle referencing it. -/
theorem c2_second_publish_spawns_second_process :
    pubState.2.procs = [⟨1, 0⟩] ∧
    twoPublishes.2.2 = .ok ∧
    twoPublishes.2.1.procs = [⟨1, 0⟩, ⟨3, 0⟩] ∧
    twoPublishes.2.1.pipes = [⟨0, 0, 1, 1⟩, ⟨2, 0, 1, 1⟩] ∧
    twoPublishes.1.ffmpegCmd = some 3 ∧
    twoPublishes.1.ffmpegIn = some 2 ∧
    twoPublishes.1.flvEnc = some 2 := by decide

/-- C6: `OnPublish` with an empty publishing name fails immediately with
the empty-name error; the handler is unchanged and the world has only
gained the entry log line: no directory, pipe or process is created. -/
theorem c6_empty_name_rejected (h : Handler) (w : World)
    (a b c d : Bool) :
    OnPublish h w "" a b c d = (h, w.log, .err .publishingNameEmpty) ∧
    (w.log).pipes = w.pipes ∧ (w.log).procs = w.procs ∧
    (w.log).dirs = w.dirs :=
  ⟨rfl, rfl, rfl, rfl⟩

/-- C7: a metadata frame that fails to decode is logged and dropped and
the callback returns nil; any run of such calls leaves the handler and
every external resource unchanged, only adding one log line per call. -/
theorem c7_malformed_metadata_nonfatal (h : Handler) (w : World)
    (n : Nat) :
    OnSetDataFrame h w false = (h, w.log, .ok) ∧
    (runMalformedMeta h w n).1 = h ∧
    (runMalformedMeta h w n).2.pipes = w.pipes ∧
    (runMalformedMeta h w n).2.procs = w.procs ∧
    (runMalformedMeta h w n).2.dirs = w.dirs ∧
    (runMalformedMeta h w n).2.logs = w.logs + n := by
  refine ⟨rfl, ?_⟩
  induction n generalizing w with
  | zero => exact ⟨rfl, rfl, rfl, rfl, rfl⟩
  | succ n ih =>
    have step : runMalformedMeta h w (n + 1) = runMalformedMeta h w.log n :=
      rfl
    rw [step]
    obtain ⟨i1, i2, i3, i4, i5⟩ := ih w.log
    refine ⟨i1, i2, i3, i4, ?_⟩
    rw [i5]
    show w.logs + 1 + n = w.logs + (n + 1)
    omega

/-- C8: an audio or video frame that fails to decode makes the callback
return the decode error to the caller, with the handler and the world
unchanged, so no bytes reach the encoder or the pipe during that call. -/
theorem c8_malformed_media_fatal (h : Handler) (w : World) (c : Bool) :
    OnAudio h w false c = (h, w, .err .decodeFailed) ∧
    OnVideo h w false c = (h, w, .err .decodeFailed) :=
  ⟨rfl, rfl⟩

/-- C10: before a successful publish the encoder field is nil, and a
frame callback whose payload decodes successfully calls `Encode` on that
nil encoder: `OnAudio`, `OnVideo` and `OnSetDataFrame` all panic in the
pre-publish state. -/
theorem c10_nil_encoder_panics (h : Handler) (w : World)
    (ho : h.flvEnc = none) :
    OnAudio h w true true = (h, w, .panicked) ∧
    OnVideo h w true true = (h, w, .panicked) ∧
    OnSetDataFrame h w true = (h, w, .panicked) := by
  obtain ⟨cmd, fin, fe⟩ := h
  have hfe : fe = none := ho
  subst hfe
  exact ⟨rfl, rfl, rfl⟩

/-- C10 witness: a fresh handler has a nil encoder and its frame
callbacks panic on well-formed payloads. -/
theorem c10_nil_encoder_panics_witness :
    Handler.start.flvEnc = none ∧
    (OnAudio Handler.start World.start true true =
        (Handler.start, World.start, .panicked) ∧
      OnVideo Handler.start World.start true true =
        (Handler.start, World.start, .panicked) ∧
      OnSetDataFrame Handler.start World.start true =
        (Handler.start, World.start, .panicked)) :=
  ⟨rfl, c10_nil_encoder_panics Handler.start World.start rfl⟩

/-- C3 counterexample: `OnClose` is not a no-op beyond the first call.
On the published session, the first `OnClose` brings the pipe's close
count to 1 and the process's kill count to 1, and the second `OnClose`
closes the pipe and kills the process again (counts 2), because the
handler's fields are never cleared. -/
theorem c3_second_close_repeats_release :
    closedOnce.2.pipes = [⟨0, 1, 1, 1⟩] ∧ closedOnce.2.procs = [⟨1, 1⟩] ∧
    closedTwice.2.pipes = [⟨0, 2, 1, 1⟩] ∧
    closedTwice.2.procs = [⟨1, 2⟩] := by decide

/-- C3 amended: calling `OnClose` twice leaves the handler in the same
terminal state as calling it once (the fields are never modified), and
both calls return normally, but each call invokes `Close` on the pipe
and `Kill` on the process again: after two calls the pipe has been
closed twice and the process killed twice, so the second call is not a
no-op. -/
theorem c3_close_same_state_not_noop (h : Handler) (w : World)
    (e i c : Nat) (p : Pipe) (q : Proc)
    (he : h.flvEnc = some e) (hi : h.ffmpegIn = some i)
    (hc : h.ffmpegCmd = some c)
    (hp : w.pipeBy i = some p) (hq : w.procBy c = some q) :
    (OnClose h w).1 = h ∧
    (OnClose (OnClose h w).1 (OnClose h w).2.1).1 = h ∧
    (OnClose h w).2.2 = CallResult.ok ∧
    (OnClose (OnClose h w).1 (OnClose h w).2.1).2.2 = CallResult.ok ∧
    (OnClose h w).2.1.closeCountOf i = w.closeCountOf i + 1 ∧
    (OnClose (OnClose h w).1 (OnClose h w).2.1).2.1.closeCountOf i =
      w.closeCountOf i + 2 ∧
    (OnClose h w).2.1.killCountOf c = w.killCountOf c + 1 ∧
    (OnClose (OnClose h w).1 (OnClose h w).2.1).2.1.killCountOf c =
      w.killCountOf c + 2 := by
  obtain ⟨cmd, fin, fe⟩ := h
  have he2 : fe = some e := he
  have hi2 : fin = some i := hi
  have hc2 : cmd = some c := hc
  subst he2; subst hi2; subst hc2
  have hp1 : (w.log).pipeBy i = some p := hp
  have hpw1 :
      (((w.log).closePipe i).killProc c).pipeBy i =
        some { p with closeCount := p.closeCount + 1 } :=
    pipeBy_closePipe (w.log) i p hp1
  have hq1 : (((w.log).closePipe i).log).procBy c = some q := hq
  have hqw1 :
      (((w.log).closePipe i).killProc c).procBy c =
        some { q with killCount := q.killCount + 1 } :=
    procBy_killProc ((w.log).closePipe i) c q hq
  have hpw2 :
      ((((((w.log).closePipe i).killProc c).log).closePipe i).killProc
        c).pipeBy i =
      some { p with closeCount := p.closeCount + 1 + 1 } :=
    pipeBy_closePipe ((((w.log).closePipe i).killProc c).log) i
      { p with closeCount := p.closeCount + 1 } hpw1
  have hqw2 :
      ((((((w.log).closePipe i).killProc c).log).closePipe i).killProc
        c).procBy c =
      some { q with killCount := q.killCount + 1 + 1 } :=
    procBy_killProc (((((w.log).closePipe i).killProc c).log).closePipe i)
      c { q with killCount := q.killCount + 1 } hqw1
  refine ⟨rfl, rfl, rfl, rfl, ?_, ?_, ?_, ?_⟩
  · show World.closeCountOf (((w.log).closePipe i).killProc c) i = _
    unfold World.closeCountOf
    rw [hpw1, hp]
    rfl
  · show World.closeCountOf
      ((((((w.log).closePipe i).killProc c).log).closePipe i).killProc c)
      i = _
    unfold World.closeCountOf
    rw [hpw2, hp]
    rfl
  · show World.killCountOf (((w.log).closePipe i).killProc c) c = _
    unfold World.killCountOf
    rw [hqw1, hq]
    rfl
  · show World.killCountOf
      ((((((w.log).closePipe i).killProc c).log).closePipe i).killProc c)
      c = _
    unfold World.killCountOf
    rw [hqw2, hq]
    rfl

/-- C3 witness: the amended close behaviour instantiated on the
published session. -/
theorem c3_close_same_state_not_noop_witness :
    pubState.1.flvEnc = some 0 ∧ pubState.1.ffmpegIn = some 0 ∧
    pubState.1.ffmpegCmd = some 1 ∧
    pubState.2.pipeBy 0 = some ⟨0, 0, 1, 1⟩ ∧
    pubState.2.procBy 1 = some ⟨1, 0⟩ ∧
    (OnClose pubState.1 pubState.2).2.1.closeCountOf 0 =
      pubState.2.closeCountOf 0 + 1 ∧
    (OnClose (OnClose pubState.1 pubState.2).1
        (OnClose pubState.1 pubState.2).2.1).2.1.closeCountOf 0 =
      pubState.2.closeCountOf 0 + 2 :=
  ⟨by decide, by decide, by decide, by decide, by decide,
    (c3_close_same_state_not_noop pubState.1 pubState.2 0 0 1
      ⟨0, 0, 1, 1⟩ ⟨1, 0⟩ (by decide) (by decide) (by decide) (by decide)
      (by decide)).2.2.2.2.1,
    (c3_close_same_state_not_noop pubState.1 pubState.2 0 0 1
      ⟨0, 0, 1, 1⟩ ⟨1, 0⟩ (by decide) (by decide) (by decide) (by decide)
      (by decide)).2.2.2.2.2.1⟩

/-- C9: when a well-formed audio or video frame is written to the
encoder but the pipe's write end is closed, the write failure is logged
and the callback returns nil to the caller: the error is not propagated,
the handler is unchanged, and no bytes are transferred. -/
theorem c9_forwarding_error_nonfatal (h : Handler) (w : World) (i : Nat)
    (p : Pipe) (he : h.flvEnc = some i) (hp : w.pipeBy i = some p)
    (hc : p.closeCount ≠ 0) :
    OnAudio h w true true = (h, (w.writePipe i).1.log, .ok) ∧
    OnVideo h w true true = (h, (w.writePipe i).1.log, .ok) ∧
    (w.writePipe i).1.writesSucceededOf i = w.writesSucceededOf i ∧
    (w.writePipe i).1.logs = w.logs := by
  have hwc := writePipe_closed w i p hp hc
  have hx : encodeTag h w = ((w.writePipe i).1, .err .writeFailed) := by
    unfold encodeTag
    simp only [he]
    rw [hwc.1]
    rfl
  have hws : (w.writePipe i).1.writesSucceededOf i = p.writesSucceeded := by
    unfold World.writesSucceededOf
    rw [hwc.2]
    rfl
  have hws2 : w.writesSucceededOf i = p.writesSucceeded := by
    unfold World.writesSucceededOf
    rw [hp]
    rfl
  have hlog : (w.writePipe i).1.logs = w.logs := by
    unfold World.writePipe
    rw [hp]
  exact ⟨OnAudio_encode h w _ _ hx, OnVideo_encode h w _ _ hx,
    hws.trans hws2.symm, hlog⟩

/-- C9 witness: the forwarding-failure policy instantiated on the closed
session, whose pipe is closed so the next write fails. -/
theorem c9_forwarding_error_nonfatal_witness :
    closedOnce.1.flvEnc = some 0 ∧
    closedOnce.2.pipeBy 0 = some ⟨0, 1, 1, 1⟩ ∧
    (1 : Nat) ≠ 0 ∧
    (OnAudio closedOnce.1 closedOnce.2 true true =
        (closedOnce.1, (closedOnce.2.writePipe 0).1.log, .ok) ∧
      OnVideo closedOnce.1 closedOnce.2 true true =
        (closedOnce.1, (closedOnce.2.writePipe 0).1.log, .ok) ∧
      (closedOnce.2.writePipe 0).1.writesSucceededOf 0 =
        closedOnce.2.writesSucceededOf 0 ∧
      (closedOnce.2.writePipe 0).1.logs = closedOnce.2.logs) :=
  ⟨by decide, by decide, by decide,
    c9_forwarding_error_nonfatal closedOnce.1 closedOnce.2 0 ⟨0, 1, 1, 1⟩
      (by decide) (by decide) (by decide)⟩

/-- C4 counterexample: a well-formed audio frame delivered after
`OnClose` still attempts a write to the closed output pipe: the pipe's
write-attempt count rises from 1 to 2, so the callback is not free of
write attempts as claimed. -/
theorem c4_post_close_write_attempted :
    closedOnce.2.pipes = [⟨0, 1, 1, 1⟩] ∧
    postCloseAudio.2.1.pipes = [⟨0, 1, 2, 1⟩] ∧
    postCloseAudio.2.2 = .ok ∧
    postCloseAudio.1 = closedOnce.1 := by decide

/-- C4 amended: after `OnClose`, frame callbacks do not panic, do not
change the handler and transfer no bytes — the pipe is closed, so every
write fails and is logged — but a successfully decoded frame still
attempts the write on the closed pipe (the attempt count rises), so the
callbacks are not write-free no-ops. -/
theorem c4_post_close_frames_transfer_no_bytes (h : Handler) (w : World)
    (i : Nat) (p : Pipe) (dk ck : Bool)
    (he : h.flvEnc = some i) (hi : h.ffmpegIn = some i)
    (hp : w.pipeBy i = some p) :
    (OnAudio h (OnClose h w).2.1 dk ck).1 = h ∧
    (OnAudio h (OnClose h w).2.1 dk ck).2.2 ≠ CallResult.panicked ∧
    (OnAudio h (OnClose h w).2.1 dk ck).2.1.writesSucceededOf i =
      (OnClose h w).2.1.writesSucceededOf i ∧
    (OnVideo h (OnClose h w).2.1 dk ck).1 = h ∧
    (OnVideo h (OnClose h w).2.1 dk ck).2.2 ≠ CallResult.panicked ∧
    (OnVideo h (OnClose h w).2.1 dk ck).2.1.writesSucceededOf i =
      (OnClose h w).2.1.writesSucceededOf i ∧
    (OnSetDataFrame h (OnClose h w).2.1 dk).1 = h ∧
    (OnSetDataFrame h (OnClose h w).2.1 dk).2.2 ≠ CallResult.panicked ∧
    (OnSetDataFrame h (OnClose h w).2.1 dk).2.1.writesSucceededOf i =
      (OnClose h w).2.1.writesSucceededOf i ∧
    (OnAudio h (OnClose h w).2.1 true true).2.1.writeAttemptsOf i =
      (OnClose h w).2.1.writeAttemptsOf i + 1 := by
  obtain ⟨cmd, fin, fe⟩ := h
  have he2 : fe = some i := he
  have hi2 : fin = some i := hi
  subst he2; subst hi2
  have hw1p : (OnClose ⟨cmd, some i, some i⟩ w).2.1.pipeBy i =
      ((w.log).closePipe i).pipeBy i := by
    cases cmd <;> rfl
  have hcl : (OnClose ⟨cmd, some i, some i⟩ w).2.1.pipeBy i =
      some { p with closeCount := p.closeCount + 1 } := by
    rw [hw1p]
    exact pipeBy_closePipe (w.log) i p hp
  generalize hg : (OnClose ⟨cmd, some i, some i⟩ w).2.1 = w1 at hcl ⊢
  have hwc := writePipe_closed w1 i _ hcl (by simp)
  have hx : encodeTag ⟨cmd, some i, some i⟩ w1 =
      ((w1.writePipe i).1, .err .writeFailed) := by
    show ((w1.writePipe i).1,
      if (w1.writePipe i).2 then CallResult.ok
      else CallResult.err .writeFailed) = _
    rw [hwc.1]
    rfl
  have hs1 : w1.writesSucceededOf i = p.writesSucceeded := by
    unfold World.writesSucceededOf
    rw [hcl]
    rfl
  have hs2 : (w1.writePipe i).1.writesSucceededOf i = p.writesSucceeded := by
    unfold World.writesSucceededOf
    rw [hwc.2]
    rfl
  have hat1 : w1.writeAttemptsOf i = p.writeAttempts := by
    unfold World.writeAttemptsOf
    rw [hcl]
    rfl
  have hat2 : (w1.writePipe i).1.writeAttemptsOf i = p.writeAttempts + 1 := by
    unfold World.writeAttemptsOf
    rw [hwc.2]
    rfl
  have hvalA : OnAudio ⟨cmd, some i, some i⟩ w1 true true =
      (⟨cmd, some i, some i⟩, (w1.writePipe i).1.log, .ok) :=
    OnAudio_encode ⟨cmd, some i, some i⟩ w1 _ _ hx
  have hvalV : OnVideo ⟨cmd, some i, some i⟩ w1 true true =
      (⟨cmd, some i, some i⟩, (w1.writePipe i).1.log, .ok) :=
    OnVideo_encode ⟨cmd, some i, some i⟩ w1 _ _ hx
  have hvalM : OnSetDataFrame ⟨cmd, some i, some i⟩ w1 true =
      (⟨cmd, some i, some i⟩, (w1.writePipe i).1.log, .ok) :=
    OnSetDataFrame_encode ⟨cmd, some i, some i⟩ w1 _ _ hx
  have hA : ∀ dk2 ck2 : Bool,
      (OnAudio ⟨cmd, some i, some i⟩ w1 dk2 ck2).1 =
        ⟨cmd, some i, some i⟩ ∧
      (OnAudio ⟨cmd, some i, some i⟩ w1 dk2 ck2).2.2 ≠
        CallResult.panicked ∧
      (OnAudio ⟨cmd, some i, some i⟩ w1 dk2 ck2).2.1.writesSucceededOf i =
        w1.writesSucceededOf i := by
    intro dk2 ck2
    cases dk2
    · exact ⟨rfl,
        show CallResult.err GoErr.decodeFailed ≠ CallResult.panicked by
          simp, rfl⟩
    · cases ck2
      · exact ⟨rfl,
          show CallResult.err GoErr.copyFailed ≠ CallResult.panicked by
            simp, rfl⟩
      · rw [hvalA]
        exact ⟨rfl,
          show CallResult.ok ≠ CallResult.panicked by simp,
          show (w1.writePipe i).1.writesSucceededOf i = _ from
            hs2.trans hs1.symm⟩
  have hV : ∀ dk2 ck2 : Bool,
      (OnVideo ⟨cmd, some i, some i⟩ w1 dk2 ck2).1 =
        ⟨cmd, some i, some i⟩ ∧
      (OnVideo ⟨cmd, some i, some i⟩ w1 dk2 ck2).2.2 ≠
        CallResult.panicked ∧
      (OnVideo ⟨cmd, some i, some i⟩ w1 dk2 ck2).2.1.writesSucceededOf i =
        w1.writesSucceededOf i := by
    intro dk2 ck2
    cases dk2
    · exact ⟨rfl,
        show CallResult.err GoErr.decodeFailed ≠ CallResult.panicked by
          simp, rfl⟩
    · cases ck2
      · exact ⟨rfl,
          show CallResult.err GoErr.copyFailed ≠ CallResult.panicked by
            simp, rfl⟩
      · rw [hvalV]
        exact ⟨rfl,
          show CallResult.ok ≠ CallResult.panicked by simp,
          show (w1.writePipe i).1.writesSucceededOf i = _ from
            hs2.trans hs1.symm⟩
  have hM : ∀ dk2 : Bool,
      (OnSetDataFrame ⟨cmd, some i, some i⟩ w1 dk2).1 =
        ⟨cmd, some i, some i⟩ ∧
      (OnSetDataFrame ⟨cmd, some i, some i⟩ w1 dk2).2.2 ≠
        CallResult.panicked ∧
      (OnSetDataFrame ⟨cmd, some i, some i⟩ w1 dk2).2.1.writesSucceededOf
        i = w1.writesSucceededOf i := by
    intro dk2
    cases dk2
    · exact ⟨rfl,
        show CallResult.ok ≠ CallResult.panicked by simp, rfl⟩
    · rw [hvalM]
      exact ⟨rfl,
        show CallResult.ok ≠ CallResult.panicked by simp,
        show (w1.writePipe i).1.writesSucceededOf i = _ from
          hs2.trans hs1.symm⟩
  refine ⟨(hA dk ck).1, (hA dk ck).2.1, (hA dk ck).2.2,
    (hV dk ck).1, (hV dk ck).2.1, (hV dk ck).2.2,
    (hM dk).1, (hM dk).2.1, (hM dk).2.2, ?_⟩
  rw [hvalA]
  show (w1.writePipe i).1.writeAttemptsOf i = _
  rw [hat2, hat1]

/-- C4 witness: the post-close frame behaviour instantiated on the
published session with a well-formed audio frame. -/
theorem c4_post_close_frames_transfer_no_bytes_witness :
    pubState.1.flvEnc = some 0 ∧ pubState.1.ffmpegIn = some 0 ∧
    pubState.2.pipeBy 0 = some ⟨0, 0, 1, 1⟩ ∧
    (OnAudio pubState.1 (OnClose pubState.1 pubState.2).2.1 true
        true).2.2 ≠ CallResult.panicked ∧
    (OnAudio pubState.1 (OnClose pubState.1 pubState.2).2.1 true
        true).2.1.writesSucceededOf 0 =
      (OnClose pubState.1 pubState.2).2.1.writesSucceededOf 0 ∧
    (OnAudio pubState.1 (OnClose pubState.1 pubState.2).2.1 true
        true).2.1.writeAttemptsOf 0 =
      (OnClose pubState.1 pubState.2).2.1.writeAttemptsOf 0 + 1 :=
  ⟨by decide, by decide, by decide,
    (c4_post_close_frames_transfer_no_bytes pubState.1 pubState.2 0
      ⟨0, 0, 1, 1⟩ true true (by decide) (by decide) (by decide)).2.1,
    (c4_post_close_frames_transfer_no_bytes pubState.1 pubState.2 0
      ⟨0, 0, 1, 1⟩ true true (by decide) (by decide)
      (by decide)).2.2.1,
    (c4_post_close_frames_transfer_no_bytes pubState.1 pubState.2 0
      ⟨0, 0, 1, 1⟩ true true (by decide) (by decide)
      (by decide)).2.2.2.2.2.2.2.2.2⟩

/-- C5 counterexample: when `flv.NewEncoder` fails after the process was
started, `OnPublish` closes the pipe and kills the process, but the
handler's `ffmpegCmd` and `ffmpegIn` fields keep the dead handles — the
claim that no pipe or process handle is held afterwards is false. -/
theorem c5_encoder_failure_keeps_handles :
    encFailRun.2.2 = .err .newEncoderFailed ∧
    encFailRun.1.ffmpegCmd = some 1 ∧
    encFailRun.1.ffmpegIn = some 0 ∧
    encFailRun.1.flvEnc = none ∧
    encFailRun.2.1.pipes = [⟨0, 1, 0, 0⟩] ∧
    encFailRun.2.1.procs = [⟨1, 1⟩] := by decide

/-- C5 amended: if `cmd.Start` fails, `OnPublish` returns the startup
error, the handler is unchanged (no handle is held), no process is
spawned, and the pipe created for the attempt is closed.  If
`flv.NewEncoder` fails, `OnPublish` returns the startup error with the
encoder field still nil, and every pipe and process created by the call
is closed or killed, but the handler retains the dead pipe and process
handles in `ffmpegIn` and `ffmpegCmd`. -/
theorem c5_startup_failure_releases_resources (h : Handler) (w : World)
    (name : String) (b : Bool) (hn : name ≠ "") :
    (OnPublish h w name true true false b).1 = h ∧
    (OnPublish h w name true true false b).2.2 = .err .startFailed ∧
    (OnPublish h w name true true false b).2.1.procs = w.procs ∧
    (∀ p ∈ (OnPublish h w name true true false b).2.1.pipes,
      p ∈ w.pipes ∨ 1 ≤ p.closeCount) ∧
    (OnPublish h w name true true true false).2.2 =
      .err .newEncoderFailed ∧
    (OnPublish h w name true true true false).1.flvEnc = h.flvEnc ∧
    (OnPublish h w name true true true false).1.ffmpegIn =
      some w.nextId ∧
    (OnPublish h w name true true true false).1.ffmpegCmd =
      some (w.nextId + 1) ∧
    (∀ p ∈ (OnPublish h w name true true true false).2.1.pipes,
      p ∈ w.pipes ∨ 1 ≤ p.closeCount) ∧
    (∀ q ∈ (OnPublish h w name true true true false).2.1.procs,
      q ∈ w.procs ∨ 1 ≤ q.killCount) := by
  have hA : OnPublish h w name true true false b =
      (h,
        World.closePipe
          ⟨w.pipes ++ [⟨w.nextId, 0, 0, 0⟩], w.procs,
            w.dirs ++ [derivedOutputDir name], w.logs + 1, w.nextId + 1⟩
          w.nextId,
        .err .startFailed) := by
    simp only [OnPublish]
    rw [if_neg hn]
    rfl
  have hB : OnPublish h w name true true true false =
      ({ h with ffmpegCmd := some (w.nextId + 1),
                ffmpegIn := some w.nextId },
        World.killProc
          (World.closePipe
            ⟨w.pipes ++ [⟨w.nextId, 0, 0, 0⟩],
              w.procs ++ [⟨w.nextId + 1, 0⟩],
              w.dirs ++ [derivedOutputDir name], w.logs + 1,
              w.nextId + 2⟩
            w.nextId)
          (w.nextId + 1),
        .err .newEncoderFailed) := by
    simp only [OnPublish]
    rw [if_neg hn]
    rfl
  refine ⟨?_, ?_, ?_, ?_, ?_, ?_, ?_, ?_, ?_, ?_⟩
  · rw [hA]
  · rw [hA]
  · rw [hA]
    rfl
  · rw [hA]
    intro p hp
    simp only [World.closePipe, List.map_append, List.mem_append,
      List.mem_map, List.mem_singleton] at hp
    rcases hp with ⟨q, hq, rfl⟩ | ⟨q, hq, rfl⟩
    · by_cases hqi : q.pid = w.nextId
      · right
        simp [hqi]
      · left
        rw [if_neg hqi]
        exact hq
    · subst hq
      right
      simp
  · rw [hB]
  · rw [hB]
  · rw [hB]
  · rw [hB]
  · rw [hB]
    intro p hp
    simp only [World.killProc, World.closePipe, List.map_append,
      List.mem_append, List.mem_map, List.mem_singleton] at hp
    rcases hp with ⟨q, hq, rfl⟩ | ⟨q, hq, rfl⟩
    · by_cases hqi : q.pid = w.nextId
      · right
        simp [hqi]
      · left
        rw [if_neg hqi]
        exact hq
    · subst hq
      right
      simp
  · rw [hB]
    intro q hq
    simp only [World.killProc, World.closePipe, List.map_append,
      List.mem_append, List.mem_map, List.mem_singleton] at hq
    rcases hq with ⟨x, hx, rfl⟩ | ⟨x, hx, rfl⟩
    · by_cases hxi : x.procId = w.nextId + 1
      · right
        simp [hxi]
      · left
        rw [if_neg hxi]
        exact hx
    · subst hx
      right
      simp

/-- C5 witness: the amended startup-failure behaviour instantiated on a
fresh session publishing "s". -/
theorem c5_startup_failure_releases_resources_witness :
    ("s" : String) ≠ "" ∧
    (OnPublish Handler.start World.start "s" true true false true).1 =
      Handler.start ∧
    (OnPublish Handler.start World.start "s" true true false true).2.2 =
      .err .startFailed ∧
    (OnPublish Handler.start World.start "s" true true true false).2.2 =
      .err .newEncoderFailed ∧
    (OnPublish Handler.start World.start "s" true true true
        false).1.ffmpegCmd = some 1 :=
  ⟨by decide,
    (c5_startup_failure_releases_resources Handler.start World.start "s"
      true (by decide)).1,
    (c5_startup_failure_releases_resources Handler.start World.start "s"
      true (by decide)).2.1,
    (c5_startup_failure_releases_resources Handler.start World.start "s"
      true (by decide)).2.2.2.2.1,
    (c5_startup_failure_releases_resources Handler.start World.start "s"
      true (by decide)).2.2.2.2.2.2.2.1⟩

end Watchify
